import Mathlib

/-!
Verification of the query-building and normalization core of the USGS
earthquake dashboard (src/app.py) against its specification.

The embedding below follows the source closely:
  - `build_query_params` (app.py lines 251-275) builds the upstream
    parameter list from the sidebar state.
  - `clean_earthquakes` (app.py lines 277-325) normalizes a GeoJSON
    payload into the canonical table and applies the client-side depth
    filter.
  - `fetch_and_cache_step` models the fetch/cache cycle of
    `render_main_app` (app.py lines 327-338).
Pandas cells are modelled with `Option`: `none` stands for a missing
cell (NaN/None), `some v` for a present JSON value.
-/

set_option autoImplicit false

/-- A JSON scalar value as it appears in a feed record field. -/
inductive JValue where
  | jnull
  | jnum (q : ℚ)
  | jstr (s : String)
  deriving DecidableEq, Repr

/-- Numeric value of a list of decimal digit characters. -/
def digitsVal (cs : List Char) : ℕ :=
  cs.foldl (fun n c => 10 * n + (c.toNat - 48)) 0

/-- All characters are decimal digits. -/
def isDigits (cs : List Char) : Bool :=
  cs.all Char.isDigit

/-- Parse an unsigned decimal mantissa: digits, optionally with a single
decimal point; mirrors the numeric strings accepted by the float
coercion used in the source. The rational is built with `mkRat`. -/
def parseMantissa (cs : List Char) : Option ℚ :=
  let ip := cs.takeWhile (fun c => c ≠ '.')
  let rest := cs.dropWhile (fun c => c ≠ '.')
  match rest with
  | [] => if isDigits ip && !ip.isEmpty then some (mkRat (Int.ofNat (digitsVal ip)) 1) else none
  | _ :: frac =>
    if isDigits ip && isDigits frac && !(ip.isEmpty && frac.isEmpty) then
      some (mkRat (Int.ofNat (digitsVal ip * Nat.pow 10 frac.length + digitsVal frac))
        (Nat.pow 10 frac.length))
    else none

/-- Parse an optionally signed decimal exponent. -/
def parseExp (cs : List Char) : Option ℤ :=
  match cs with
  | '-' :: r => if isDigits r && !r.isEmpty then some (Int.negOfNat (digitsVal r)) else none
  | '+' :: r => if isDigits r && !r.isEmpty then some (Int.ofNat (digitsVal r)) else none
  | _ => if isDigits cs && !cs.isEmpty then some (Int.ofNat (digitsVal cs)) else none

/-- Scale a mantissa by a signed power of ten. -/
def applyExp (q : ℚ) : ℤ → ℚ
  | .ofNat k => q * mkRat (Int.ofNat (Nat.pow 10 k)) 1
  | .negSucc k => q * mkRat 1 (Nat.pow 10 (k + 1))

/-- Parse a decimal number with optional sign, fraction and exponent;
returns `none` on a string that does not denote a number. Models the
string-to-float conversion performed by the numeric coercion with
error tolerance in the source. -/
def parseRat (s : String) : Option ℚ :=
  let cs := s.toList
  let mant := cs.takeWhile (fun c => c ≠ 'e' && c ≠ 'E')
  let rest := cs.dropWhile (fun c => c ≠ 'e' && c ≠ 'E')
  let m : Option ℚ :=
    match mant with
    | '-' :: r => (parseMantissa r).map (fun q => -q)
    | '+' :: r => parseMantissa r
    | _ => parseMantissa mant
  match rest with
  | [] => m
  | _ :: ex =>
    match m, parseExp ex with
    | some q, some e => some (applyExp q e)
    | _, _ => none

/-- One feed record, restricted to the field paths that the keep list of
`clean_earthquakes` extracts. `none` means the path is absent from the
record; `some v` means it is present with JSON value `v`. The geometry
coordinate array is kept as a list of JSON values. -/
structure Feature where
  id : Option JValue
  time : Option JValue
  place : Option JValue
  mag : Option JValue
  etype : Option JValue
  alert : Option JValue
  url : Option JValue
  coords : Option (List JValue)
  deriving DecidableEq, Repr

/-- The raw GeoJSON payload: an optional features array (absent key is
read back as the empty list, as `geojson.get` does). -/
structure Payload where
  features : Option (List Feature)
  deriving DecidableEq, Repr

/-- Features of a payload, defaulting to the empty list. -/
def Payload.feats (p : Payload) : List Feature :=
  p.features.getD []

/-- One row of the normalized table. Numeric cells carry rationals after
coercion; text cells carry the raw JSON value. `none` is a null cell. -/
structure Row where
  time : Option ℚ
  place : Option JValue
  magnitude : Option ℚ
  depth : Option ℚ
  lat : Option ℚ
  lon : Option ℚ
  event_type : Option JValue
  alert_level : Option JValue
  url : Option JValue
  id : Option JValue
  deriving DecidableEq, Repr

/-- The normalized table: its column list and its rows. -/
structure Table where
  cols : List String
  rows : List Row
  deriving DecidableEq, Repr

/-- The canonical column order of the source (the `order` list and the
columns of the empty-payload table). -/
def canonicalCols : List String :=
  ["time", "place", "magnitude", "depth", "lat", "lon",
   "event_type", "alert_level", "url", "id"]

/-- Numeric coercion with error tolerance, as applied to the magnitude,
depth, lat and lon cells: numbers pass through, numeric strings parse,
anything else (null, missing, non-numeric string) becomes null. -/
def toNumericCell : Option JValue → Option ℚ
  | none => none
  | some .jnull => none
  | some (.jnum q) => some q
  | some (.jstr s) => parseRat s

/-- Epoch-millisecond to timestamp conversion applied to the time cell:
missing and null become null (NaT); numbers and numeric strings convert;
a non-numeric value raises. -/
def toDatetimeCell : Option JValue → Except String (Option ℚ)
  | none => .ok none
  | some .jnull => .ok none
  | some (.jnum q) => .ok (some q)
  | some (.jstr s) =>
    match parseRat s with
    | some q => .ok (some q)
    | none => .error "ValueError: non convertible value to datetime"

/-- Build the output row of one feature given its converted time cell:
coordinates unpack positionally as lon, lat, depth (short arrays give
null), numeric fields are coerced, text fields pass through. -/
def normalizeRow (f : Feature) (t : Option ℚ) : Row where
  time := t
  place := f.place
  magnitude := toNumericCell f.mag
  depth := toNumericCell (f.coords.bind (fun c => List.get? c 2))
  lat := toNumericCell (f.coords.bind (fun c => List.get? c 1))
  lon := toNumericCell (f.coords.bind (fun c => List.get? c 0))
  event_type := f.etype
  alert_level := f.alert
  url := f.url
  id := f.id

/-- Normalize one feature, converting its time cell first (the
conversion can raise). -/
def mkRow (f : Feature) : Except String Row :=
  match toDatetimeCell f.time with
  | .error e => .error e
  | .ok t => .ok (normalizeRow f t)

/-- Effectful map over a list in the `Except` monad, stopping at the
first error. -/
def mapE {α β : Type} (g : α → Except String β) : List α → Except String (List β)
  | [] => .ok []
  | a :: as =>
    match g a with
    | .error e => .error e
    | .ok b =>
      match mapE g as with
      | .error e => .error e
      | .ok bs => .ok (b :: bs)

/-- Normalize every feature of the payload, in order. -/
def featureRows (fs : List Feature) : Except String (List Row) :=
  mapE mkRow fs

/-- Whether a canonical column survives the column selections of the
source for a nonempty feature list: lon, lat and depth are always
created, time and magnitude are guaranteed on the non-raising path, and
each remaining column exists exactly when its source path occurs in at
least one record. -/
def hasCol (fs : List Feature) (c : String) : Bool :=
  match c with
  | "time" => true
  | "magnitude" => true
  | "depth" => true
  | "lat" => true
  | "lon" => true
  | "place" => fs.any (fun f => f.place.isSome)
  | "event_type" => fs.any (fun f => f.etype.isSome)
  | "alert_level" => fs.any (fun f => f.alert.isSome)
  | "url" => fs.any (fun f => f.url.isSome)
  | "id" => fs.any (fun f => f.id.isSome)
  | _ => false

/-- The client-side depth post-filter predicate: keep a row when its
depth is null, or when the depth lies within the inclusive bounds. -/
def keepDepth (mindepth maxdepth : ℚ) (r : Row) : Bool :=
  match r.depth with
  | none => true
  | some d => decide (mindepth ≤ d) && decide (d ≤ maxdepth)

/-- The normalizer of app.py lines 277-325. An empty features list gives
the canonical empty table. Otherwise the coordinate unpacking requires
the coordinate column to exist (it raises a KeyError when no record has
geometry, and the frame construction fails on a mix of present and
absent coordinate arrays); the time conversion requires the time column
(KeyError otherwise) and raises on non-convertible values; the numeric
coercion loop requires the magnitude column (KeyError otherwise); then
rows are built, the depth filter is applied, and the surviving canonical
columns are selected in order. -/
def clean_earthquakes (mindepth maxdepth : ℚ) (geojson : Payload) : Except String Table :=
  let fs := geojson.feats
  if fs.isEmpty then
    .ok ⟨canonicalCols, []⟩
  else if fs.all (fun f => f.coords.isNone) then
    .error "KeyError: geometry.coordinates"
  else if fs.any (fun f => f.coords.isNone) then
    .error "ValueError: mixed geometry.coordinates"
  else if fs.all (fun f => f.time.isNone) then
    .error "KeyError: time_epoch_ms"
  else
    match featureRows fs with
    | .error e => .error e
    | .ok rs =>
      if fs.all (fun f => f.mag.isNone) then
        .error "KeyError: magnitude"
      else
        .ok ⟨canonicalCols.filter (hasCol fs), rs.filter (keepDepth mindepth maxdepth)⟩

/-- A UTC wall-clock instant as the source formats it (naive, second
precision). -/
structure DateTime where
  year : ℕ
  month : ℕ
  day : ℕ
  hour : ℕ
  minute : ℕ
  second : ℕ
  deriving DecidableEq, Repr

/-- Zero-pad a number to two digits. -/
def pad2 (n : ℕ) : String :=
  if n < 10 then "0" ++ toString n else toString n

/-- Zero-pad a number to four digits. -/
def pad4 (n : ℕ) : String :=
  if n < 10 then "000" ++ toString n
  else if n < 100 then "00" ++ toString n
  else if n < 1000 then "0" ++ toString n
  else toString n

/-- The strftime format used for starttime and endtime. -/
def strftimeYmdHMS (d : DateTime) : String :=
  pad4 d.year ++ "-" ++ pad2 d.month ++ "-" ++ pad2 d.day ++ "T" ++
    pad2 d.hour ++ ":" ++ pad2 d.minute ++ ":" ++ pad2 d.second

/-- A value stored in the query-parameter dictionary: the source puts
strings, floats and one int in it. -/
inductive PValue where
  | str (s : String)
  | num (q : ℚ)
  | int (n : ℤ)
  deriving DecidableEq, Repr

/-- The region filter state as the sidebar establishes it: exactly one
of the three modes, carrying its parameters (bbox is south, north,
west, east; circle is center lat, center lon, radius km). -/
inductive RegionMode where
  | global
  | boundingBox (south north west east : ℚ)
  | circle (lat0 lon0 radiusKm : ℚ)
  deriving DecidableEq, Repr

/-- The sidebar state that `build_query_params` and the depth
post-filter read: time window, magnitude bounds, depth bounds, region
mode, ordering tag and result limit. -/
structure QueryFilter where
  starttime : DateTime
  endtime : DateTime
  minmag : ℚ
  maxmag : ℚ
  mindepth : ℚ
  maxdepth : ℚ
  region : RegionMode
  orderby : String
  limit : ℤ
  deriving DecidableEq, Repr

/-- The parameter builder of app.py lines 251-275: a base dictionary of
format, time window, magnitude bounds, ordering and limit, extended by
the bounding-box quartet or the circle triple according to the region
mode. Insertion order of the Python dict is preserved as list order. -/
def build_query_params (qf : QueryFilter) : List (String × PValue) :=
  let q : List (String × PValue) :=
    [("format", .str "geojson"),
     ("starttime", .str (strftimeYmdHMS qf.starttime)),
     ("endtime", .str (strftimeYmdHMS qf.endtime)),
     ("minmagnitude", .num qf.minmag),
     ("maxmagnitude", .num qf.maxmag),
     ("orderby", .str qf.orderby),
     ("limit", .int qf.limit)]
  match qf.region with
  | .global => q
  | .boundingBox south north west east =>
    q ++ [("minlatitude", .num south), ("maxlatitude", .num north),
          ("minlongitude", .num west), ("maxlongitude", .num east)]
  | .circle lat0 lon0 radiusKm =>
    q ++ [("latitude", .num lat0), ("longitude", .num lon0),
          ("maxradiuskm", .num radiusKm)]

/-- The four ordering tags offered by the sidebar selectbox. -/
def orderbyTags : List String :=
  ["time", "time-asc", "magnitude", "magnitude-asc"]

/-- The session cache: the normalized table and the parameters that
generated it, each absent before the first successful fetch. -/
structure SessionState where
  df_cache : Option Table
  q_cache : Option (List (String × PValue))
  deriving DecidableEq, Repr

/-- Outcome of the network fetch: a parsed payload, or a transport
error (network failure, non-success status, unparseable body). -/
inductive FetchResult where
  | ok (geojson : Payload)
  | transportError (msg : String)
  deriving DecidableEq, Repr

/-- The fetch-and-cache cycle of app.py lines 327-338: when the user
clicked fetch or no table is cached yet, the payload is fetched and
normalized and both cache entries are replaced together; any failure
(transport error, or an exception inside the normalizer) leaves the
caches untouched, surfaces the message and halts the cycle. Returns the
session state after the cycle and the surfaced error, if any. -/
def fetch_and_cache_step (qf : QueryFilter) (run_btn : Bool) (s : SessionState)
    (fetched : FetchResult) : SessionState × Option String :=
  if run_btn || s.df_cache.isNone then
    match fetched with
    | .transportError e => (s, some ("Failed to fetch data: " ++ e))
    | .ok geo =>
      match clean_earthquakes qf.mindepth qf.maxdepth geo with
      | .error e => (s, some ("Failed to fetch data: " ++ e))
      | .ok df => ({ df_cache := some df, q_cache := some (build_query_params qf) }, none)
  else (s, none)

/-- Modelled from the spec: the ten canonical column names as the
specification and the claim list them, with the depth column called
depth_km; stated only for comparison with the column list of the
source, which calls that column depth. -/
def specCanonicalCols : List String :=
  ["time", "place", "magnitude", "depth_km", "lat", "lon",
   "event_type", "alert_level", "url", "id"]

/-- A feature carrying every modelled field except the alert level. -/
def fNoAlert : Feature :=
  ⟨some (.jstr "a1"), some (.jnum 1000), some (.jstr "P"), some (.jnum 5),
   some (.jstr "earthquake"), none, some (.jstr "u"),
   some [.jnum 115, .jnum (-32), .jnum 10]⟩

/-- Payload whose single record lacks the alert field. -/
def pNoAlert : Payload := ⟨some [fNoAlert]⟩

/-- The normalized row of `fNoAlert`. -/
def rNoAlert : Row :=
  ⟨some 1000, some (.jstr "P"), some 5, some 10, some (-32), some 115,
   some (.jstr "earthquake"), none, some (.jstr "u"), some (.jstr "a1")⟩

/-- The columns produced for `pNoAlert`: the canonical list without
alert_level. -/
def colsNoAlert : List String :=
  ["time", "place", "magnitude", "depth", "lat", "lon", "event_type", "url", "id"]

/-- A feature with geometry, a timestamp and a magnitude of depth 10;
place and id present, the rest absent. -/
def fD10 : Feature :=
  ⟨some (.jstr "a1"), some (.jnum 1000), some (.jstr "A"), some (.jnum 5),
   none, none, none, some [.jnum 115, .jnum (-32), .jnum 10]⟩

/-- A feature whose coordinate array is short, so its depth is null. -/
def fDnull : Feature :=
  ⟨some (.jstr "a2"), some (.jnum 2000), some (.jstr "B"), some (.jnum 6),
   none, none, none, some [.jnum 116, .jnum (-33)]⟩

/-- Payload with one depth-10 record and one null-depth record. -/
def pC2 : Payload := ⟨some [fD10, fDnull]⟩

/-- The normalized row of `fD10`. -/
def rD10 : Row :=
  ⟨some 1000, some (.jstr "A"), some 5, some 10, some (-32), some 115,
   none, none, none, some (.jstr "a1")⟩

/-- The normalized row of `fDnull`. -/
def rDnull : Row :=
  ⟨some 2000, some (.jstr "B"), some 6, none, some (-33), some 116,
   none, none, none, some (.jstr "a2")⟩

/-- The columns produced for `pC2`. -/
def colsC2 : List String :=
  ["time", "place", "magnitude", "depth", "lat", "lon", "id"]

/-- A record with no geometry at all. -/
def fNoGeom : Feature :=
  ⟨some (.jstr "x"), some (.jnum 1000), some (.jstr "P"), some (.jnum 5),
   none, none, none, none⟩

/-- A record with geometry only. -/
def fGeomOnly : Feature :=
  ⟨none, none, none, none, none, none, none, some [.jnum 1, .jnum 2, .jnum 3]⟩

/-- A record with geometry and a timestamp but no magnitude. -/
def fGeomTime : Feature :=
  ⟨none, some (.jnum 1000), none, none, none, none, none,
   some [.jnum 1, .jnum 2, .jnum 3]⟩

/-- A full record used in the totality witness. -/
def fFull : Feature :=
  ⟨some (.jstr "f1"), some (.jnum 1700000000000), some (.jstr "T"),
   some (.jnum 5), some (.jstr "earthquake"), some (.jstr "green"),
   some (.jstr "h"), some [.jnum 115, .jnum (-32), .jnum 12]⟩

/-- A near-empty record: an empty coordinate array and nothing else. -/
def fPartial : Feature :=
  ⟨none, none, none, none, none, none, none, some []⟩

/-- Payload mixing a full record and a near-empty record. -/
def pC3 : Payload := ⟨some [fFull, fPartial]⟩

/-- A record whose magnitude and all three coordinate entries are
present but are non-numeric strings. -/
def fBadNums : Feature :=
  ⟨some (.jstr "c"), some (.jnum 1000), none, some (.jstr "N/A"),
   none, none, none, some [.jstr "east", .jstr "north", .jstr "deep"]⟩

/-- Payload with the non-numeric-fields record. -/
def pBadNums : Payload := ⟨some [fBadNums]⟩

/-- The normalized row of `fBadNums`: null magnitude, depth, lat and
lon, row retained. -/
def rBadNums : Row :=
  ⟨some 1000, none, none, none, none, none, none, none, none,
   some (.jstr "c")⟩

/-- The columns produced for `pBadNums`. -/
def colsC7 : List String :=
  ["time", "magnitude", "depth", "lat", "lon", "id"]

/-- Whether an `Except` computation succeeded. -/
def isOkE {α : Type} : Except String α → Bool
  | .ok _ => true
  | .error _ => false

/-- A fixed instant used for concrete query filters in witnesses. -/
def dt0 : DateTime := ⟨2025, 10, 1, 0, 0, 0⟩

/-- A concrete global-region query filter. -/
def qfGlobal : QueryFilter :=
  ⟨dt0, ⟨2025, 10, 2, 0, 0, 0⟩, 0, 10, 0, 700, .global, "time", 20000⟩

/-- A concrete query filter whose ordering tag is not one of the four
offered by the selectbox. -/
def qfBogus : QueryFilter :=
  ⟨dt0, ⟨2025, 10, 2, 0, 0, 0⟩, 0, 10, 0, 700, .global, "bogus", 20000⟩


theorem mapE_ok_length {α β : Type} {g : α → Except String β} {l : List α} {rs : List β}
    (h : mapE g l = .ok rs) : rs.length = l.length := by
  induction l generalizing rs with
  | nil =>
    simp only [mapE] at h
    cases h
    rfl
  | cons a as ih =>
    unfold mapE at h
    cases hg : g a with
    | error e => rw [hg] at h; cases h
    | ok b =>
      rw [hg] at h
      cases hm : mapE g as with
      | error e => rw [hm] at h; cases h
      | ok bs =>
        rw [hm] at h
        cases h
        simp [ih hm]

theorem mapE_ok_mem {α β : Type} {g : α → Except String β} {l : List α} {rs : List β}
    (h : mapE g l = .ok rs) {a : α} (ha : a ∈ l) : ∃ b, g a = .ok b ∧ b ∈ rs := by
  induction l generalizing rs with
  | nil => cases ha
  | cons x as ih =>
    unfold mapE at h
    cases hg : g x with
    | error e => rw [hg] at h; cases h
    | ok b =>
      rw [hg] at h
      cases hm : mapE g as with
      | error e => rw [hm] at h; cases h
      | ok bs =>
        rw [hm] at h
        cases h
        rcases List.mem_cons.mp ha with rfl | hmem
        · exact ⟨b, hg, List.mem_cons_self _ _⟩
        · obtain ⟨b2, hb2, hb2m⟩ := ih hm hmem
          exact ⟨b2, hb2, List.mem_cons_of_mem _ hb2m⟩

theorem mapE_ok_of_forall {α β : Type} {g : α → Except String β} {l : List α}
    (h : ∀ a ∈ l, isOkE (g a) = true) : ∃ rs, mapE g l = .ok rs := by
  induction l with
  | nil => exact ⟨[], rfl⟩
  | cons a as ih =>
    have ha := h a (List.mem_cons_self _ _)
    obtain ⟨rs, hrs⟩ := ih (fun x hx => h x (List.mem_cons_of_mem _ hx))
    cases hg : g a with
    | error e => rw [hg] at ha; cases ha
    | ok b =>
      refine ⟨b :: rs, ?_⟩
      unfold mapE
      rw [hg, hrs]

theorem keepDepth_iff {mn mx : ℚ} {r : Row} :
    keepDepth mn mx r = true ↔
      (r.depth = none ∨ ∃ d, r.depth = some d ∧ mn ≤ d ∧ d ≤ mx) := by
  unfold keepDepth
  cases hd : r.depth with
  | none => simp
  | some d => simp [hd]

/-- Case split for a successful run of the normalizer: either the
payload was empty and the canonical empty table is returned, or every
feature was normalized and the result is the depth-filtered row list
under the surviving canonical columns. -/
theorem clean_ok_cases {mn mx : ℚ} {p : Payload} {T : Table}
    (h : clean_earthquakes mn mx p = .ok T) :
    (p.feats = [] ∧ T = ⟨canonicalCols, []⟩) ∨
    (p.feats ≠ [] ∧ ∃ rs, featureRows p.feats = .ok rs ∧
      T = ⟨canonicalCols.filter (hasCol p.feats), rs.filter (keepDepth mn mx)⟩) := by
  unfold clean_earthquakes at h
  by_cases he : p.feats.isEmpty
  · rw [if_pos he] at h
    cases h
    exact Or.inl ⟨List.isEmpty_iff.mp he, rfl⟩
  · rw [if_neg he] at h
    right
    refine ⟨fun hnil => he (by simp [hnil]), ?_⟩
    by_cases h1 : p.feats.all (fun f => f.coords.isNone)
    · rw [if_pos h1] at h; cases h
    · rw [if_neg h1] at h
      by_cases h2 : p.feats.any (fun f => f.coords.isNone)
      · rw [if_pos h2] at h; cases h
      · rw [if_neg h2] at h
        by_cases h3 : p.feats.all (fun f => f.time.isNone)
        · rw [if_pos h3] at h; cases h
        · rw [if_neg h3] at h
          cases hm : featureRows p.feats with
          | error e => rw [hm] at h; cases h
          | ok rs =>
            rw [hm] at h
            dsimp only at h
            by_cases h4 : p.feats.all (fun f => f.mag.isNone)
            · rw [if_pos h4] at h; cases h
            · rw [if_neg h4] at h
              cases h
              exact ⟨rs, rfl, rfl⟩

/-- C4: the built parameter set contains the bounding-box quartet
exactly when the region mode is a bounding box, the circle triple
exactly when the region mode is a circle, and no region parameter in
global mode, so the two groups never appear simultaneously. -/
theorem build_query_params_region_exclusive (qf : QueryFilter) :
    (("minlatitude" ∈ (build_query_params qf).map Prod.fst ∧
      "maxlatitude" ∈ (build_query_params qf).map Prod.fst ∧
      "minlongitude" ∈ (build_query_params qf).map Prod.fst ∧
      "maxlongitude" ∈ (build_query_params qf).map Prod.fst) ↔
      (∃ s n w e, qf.region = .boundingBox s n w e)) ∧
    (("latitude" ∈ (build_query_params qf).map Prod.fst ∧
      "longitude" ∈ (build_query_params qf).map Prod.fst ∧
      "maxradiuskm" ∈ (build_query_params qf).map Prod.fst) ↔
      (∃ la lo r, qf.region = .circle la lo r)) ∧
    (qf.region = .global →
      ∀ k ∈ ["minlatitude", "maxlatitude", "minlongitude", "maxlongitude",
             "latitude", "longitude", "maxradiuskm"],
        k ∉ (build_query_params qf).map Prod.fst) := by
  cases hr : qf.region with
  | global =>
    refine ⟨?_, ?_, ?_⟩
    · simp [build_query_params, hr]
    · simp [build_query_params, hr]
    · intro _ k hk
      simp only [List.mem_cons, List.not_mem_nil, or_false] at hk
      rcases hk with rfl | rfl | rfl | rfl | rfl | rfl | rfl
      all_goals simp [build_query_params, hr]
  | boundingBox s n w e =>
    refine ⟨?_, ?_, ?_⟩
    · simp [build_query_params, hr]
    · simp [build_query_params, hr]
    · intro hg; exact RegionMode.noConfusion hg
  | circle la lo r =>
    refine ⟨?_, ?_, ?_⟩
    · simp [build_query_params, hr]
    · simp [build_query_params, hr]
    · intro hg; exact RegionMode.noConfusion hg

/-- C4 witness at a concrete global-region filter. -/
theorem build_query_params_region_exclusive_witness :
    "minlatitude" ∉ (build_query_params qfGlobal).map Prod.fst :=
  (build_query_params_region_exclusive qfGlobal).2.2 rfl "minlatitude" (by decide)

/-- C5: the parameter builder is a pure function of the query filter:
two runs on equal filters produce identical parameter sets. -/
theorem build_query_params_deterministic (qf1 qf2 : QueryFilter) (h : qf1 = qf2) :
    build_query_params qf1 = build_query_params qf2 := by rw [h]

/-- C5 witness at a concrete filter. -/
theorem build_query_params_deterministic_witness :
    build_query_params qfGlobal = build_query_params qfGlobal :=
  build_query_params_deterministic qfGlobal qfGlobal rfl

/-- C6: the depth bounds are not sent upstream: the built parameters
carry no depth key, and changing only the depth bounds leaves the
parameter set unchanged. -/
theorem build_query_params_depth_frame (qf : QueryFilter) (a b : ℚ) :
    build_query_params { qf with mindepth := a, maxdepth := b } = build_query_params qf ∧
    (∀ k ∈ (build_query_params qf).map Prod.fst,
      k ≠ "mindepth" ∧ k ≠ "maxdepth" ∧ k ≠ "minDepth" ∧ k ≠ "maxDepth") := by
  constructor
  · rfl
  · intro k hk
    cases hr : qf.region with
    | global =>
      simp [build_query_params, hr] at hk
      rcases hk with rfl | rfl | rfl | rfl | rfl | rfl | rfl <;> exact (by decide)
    | boundingBox s n w e =>
      simp [build_query_params, hr] at hk
      rcases hk with rfl | rfl | rfl | rfl | rfl | rfl | rfl | rfl | rfl | rfl | rfl <;>
        exact (by decide)
    | circle la lo r =>
      simp [build_query_params, hr] at hk
      rcases hk with rfl | rfl | rfl | rfl | rfl | rfl | rfl | rfl | rfl | rfl <;>
        exact (by decide)

/-- C6 witness: changing only the depth bounds at a concrete filter
leaves the parameter set unchanged. -/
theorem build_query_params_depth_frame_witness :
    build_query_params { qfGlobal with mindepth := 40, maxdepth := 100 } =
      build_query_params qfGlobal :=
  (build_query_params_depth_frame qfGlobal 40 100).1

/-- C8 counterexample: with the ordering tag set to a string outside
the four enumerated tags, the builder does not fail: it silently
forwards the unrecognized tag in the parameter set. -/
theorem build_query_params_forwards_unrecognized_orderby :
    "bogus" ∉ orderbyTags ∧
    ("orderby", PValue.str "bogus") ∈ build_query_params qfBogus := by
  constructor
  · decide
  · decide

/-- C8 amended: the builder performs no validation of the ordering tag
and always forwards it verbatim; the restriction to the four enumerated
tags is enforced only by the sidebar selectbox, not by the builder. -/
theorem build_query_params_orderby_verbatim (qf : QueryFilter) :
    ("orderby", PValue.str qf.orderby) ∈ build_query_params qf := by
  cases hr : qf.region <;> simp [build_query_params, hr]

/-- C1 counterexample: the claimed ten-column list names the depth
column depth_km while the source emits depth, so even the empty payload
does not carry the claimed columns; and on a payload whose records all
lack the alert field, the output has only nine columns, so the column
set is not invariant across inputs. -/
theorem clean_earthquakes_columns_cex :
    (clean_earthquakes 0 700 ⟨some []⟩ = .ok ⟨canonicalCols, []⟩ ∧
      canonicalCols ≠ specCanonicalCols) ∧
    (clean_earthquakes 0 700 pNoAlert = .ok ⟨colsNoAlert, [rNoAlert]⟩ ∧
      colsNoAlert ≠ canonicalCols) := by
  refine ⟨⟨rfl, by decide⟩, ⟨?_, by decide⟩⟩
  rfl

/-- C1 (amended): the table of a successful normalization has a
subsequence of the canonical columns time, place, magnitude, depth,
lat, lon, event_type, alert_level, url, id, in that order; the empty
payload gives exactly the ten canonical columns and zero rows; a
nonempty payload gives the canonical columns restricted to the fields
present in at least one record, with time, magnitude, depth, lat and
lon always among them. -/
theorem clean_earthquakes_columns (mn mx : ℚ) (p : Payload) (T : Table)
    (h : clean_earthquakes mn mx p = .ok T) :
    T.cols.Sublist canonicalCols ∧
    (p.feats = [] → T.cols = canonicalCols ∧ T.rows = []) ∧
    (p.feats ≠ [] →
      ("time" ∈ T.cols ∧ "magnitude" ∈ T.cols ∧ "depth" ∈ T.cols ∧
       "lat" ∈ T.cols ∧ "lon" ∈ T.cols) ∧
      ("place" ∈ T.cols ↔ (p.feats.any fun f => f.place.isSome) = true) ∧
      ("event_type" ∈ T.cols ↔ (p.feats.any fun f => f.etype.isSome) = true) ∧
      ("alert_level" ∈ T.cols ↔ (p.feats.any fun f => f.alert.isSome) = true) ∧
      ("url" ∈ T.cols ↔ (p.feats.any fun f => f.url.isSome) = true) ∧
      ("id" ∈ T.cols ↔ (p.feats.any fun f => f.id.isSome) = true)) := by
  rcases clean_ok_cases h with ⟨hfe, rfl⟩ | ⟨hne, rs, hrs, rfl⟩
  · refine ⟨List.Sublist.refl _, fun _ => ⟨rfl, rfl⟩, fun hne => absurd hfe hne⟩
  · refine ⟨List.filter_sublist _, fun hfe => absurd hfe hne, fun _ => ?_⟩
    refine ⟨⟨?_, ?_, ?_, ?_, ?_⟩, ?_, ?_, ?_, ?_, ?_⟩
    all_goals simp [List.mem_filter, hasCol, canonicalCols]

/-- C1 witness: the amended theorem applied to the alertless payload,
giving the absence of the alert_level column there. -/
theorem clean_earthquakes_columns_witness :
    ("alert_level" ∈ (Table.mk colsNoAlert [rNoAlert]).cols ↔
      (pNoAlert.feats.any fun f => f.alert.isSome) = true) :=
  ((clean_earthquakes_columns 0 700 pNoAlert ⟨colsNoAlert, [rNoAlert]⟩
    (by rfl)).2.2 (by decide)).2.2.2.1

/-- C2: a normalized row is in the output table exactly when it is one
of the rows built from the records and its coerced depth is null or
lies within the inclusive depth bounds. -/
theorem clean_earthquakes_depth_filter (mn mx : ℚ) (p : Payload) (T : Table)
    (rs : List Row) (hT : clean_earthquakes mn mx p = .ok T)
    (hrs : featureRows p.feats = .ok rs) (r : Row) :
    r ∈ T.rows ↔
      (r ∈ rs ∧ (r.depth = none ∨ ∃ d, r.depth = some d ∧ mn ≤ d ∧ d ≤ mx)) := by
  rcases clean_ok_cases hT with ⟨hfe, rfl⟩ | ⟨hne, rs2, hrs2, rfl⟩
  · rw [hfe] at hrs
    have : rs = [] := by
      simp only [featureRows, mapE] at hrs
      cases hrs
      rfl
    subst this
    simp
  · rw [hrs] at hrs2
    cases hrs2
    show r ∈ rs.filter (keepDepth mn mx) ↔ _
    rw [List.mem_filter, keepDepth_iff]

/-- C2 witness: under bounds 0 to 30, the depth-10 row and the
null-depth row are both retained; under bounds 40 to 100, the depth-10
row is dropped while the null-depth row is retained. -/
theorem clean_earthquakes_depth_filter_witness :
    rD10 ∈ (Table.mk colsC2 [rD10, rDnull]).rows ∧
    rDnull ∈ (Table.mk colsC2 [rD10, rDnull]).rows ∧
    rD10 ∉ (Table.mk colsC2 [rDnull]).rows ∧
    rDnull ∈ (Table.mk colsC2 [rDnull]).rows := by
  refine ⟨?_, ?_, ?_, ?_⟩
  · exact (clean_earthquakes_depth_filter 0 30 pC2 ⟨colsC2, [rD10, rDnull]⟩
      [rD10, rDnull] (by rfl) (by rfl) rD10).mpr ⟨by decide, by decide⟩
  · exact (clean_earthquakes_depth_filter 0 30 pC2 ⟨colsC2, [rD10, rDnull]⟩
      [rD10, rDnull] (by rfl) (by rfl) rDnull).mpr ⟨by decide, by decide⟩
  · intro hmem
    have := (clean_earthquakes_depth_filter 40 100 pC2 ⟨colsC2, [rDnull]⟩
      [rD10, rDnull] (by rfl) (by rfl) rD10).mp hmem
    revert this
    decide
  · exact (clean_earthquakes_depth_filter 40 100 pC2 ⟨colsC2, [rDnull]⟩
      [rD10, rDnull] (by rfl) (by rfl) rDnull).mpr ⟨by decide, by decide⟩

/-- C10: the output rows are a subsequence of the per-record rows taken
in payload order, one row per record before filtering, so the depth
filter drops rows but never reorders them. -/
theorem clean_earthquakes_order_preserving (mn mx : ℚ) (p : Payload) (T : Table)
    (rs : List Row) (hT : clean_earthquakes mn mx p = .ok T)
    (hrs : featureRows p.feats = .ok rs) :
    T.rows.Sublist rs ∧ rs.length = p.feats.length := by
  have hlen := mapE_ok_length hrs
  rcases clean_ok_cases hT with ⟨hfe, rfl⟩ | ⟨hne, rs2, hrs2, rfl⟩
  · exact ⟨List.nil_sublist rs, hlen⟩
  · rw [hrs] at hrs2
    cases hrs2
    exact ⟨List.filter_sublist _, hlen⟩

/-- C10 witness at the two-record payload. -/
theorem clean_earthquakes_order_preserving_witness :
    (Table.mk colsC2 [rDnull]).rows.Sublist [rD10, rDnull] ∧
    ([rD10, rDnull] : List Row).length = pC2.feats.length :=
  clean_earthquakes_order_preserving 40 100 pC2 ⟨colsC2, [rDnull]⟩
    [rD10, rDnull] (by rfl) (by rfl)

/-- C3 counterexample: normalization is not total. A payload whose
records all lack geometry raises a KeyError on the coordinate column;
with geometry but no timestamp anywhere it raises on the time column;
with geometry and timestamps but no magnitude anywhere it raises on the
magnitude column. In each case the whole payload fails, instead of the
absent fields becoming null. -/
theorem clean_earthquakes_not_total_cex :
    clean_earthquakes 0 700 ⟨some [fNoGeom]⟩ = .error "KeyError: geometry.coordinates" ∧
    clean_earthquakes 0 700 ⟨some [fGeomOnly]⟩ = .error "KeyError: time_epoch_ms" ∧
    clean_earthquakes 0 700 ⟨some [fGeomTime]⟩ = .error "KeyError: magnitude" :=
  ⟨rfl, rfl, rfl⟩

/-- C3 (amended): normalization is total on a payload in which every
record carries a coordinate array, some record carries the timestamp
field, some record carries the magnitude field, and every present
timestamp converts; under those conditions a field absent from an
individual record yields null in its cell (absent magnitude, absent
timestamp, short coordinate array), the row is never lost to a
row-level data-quality issue, and a null-depth row survives the depth
filter into the output table. -/
theorem clean_earthquakes_total_when_columns_present (mn mx : ℚ) (p : Payload)
    (h1 : ∀ f ∈ p.feats, f.coords.isSome = true)
    (h2 : ∃ f ∈ p.feats, f.time.isSome = true)
    (h3 : ∃ f ∈ p.feats, f.mag.isSome = true)
    (h4 : ∀ f ∈ p.feats, isOkE (toDatetimeCell f.time) = true) :
    ∃ T, clean_earthquakes mn mx p = .ok T ∧
      ∀ f ∈ p.feats, ∃ r, mkRow f = .ok r ∧
        (f.mag = none → r.magnitude = none) ∧
        (f.time = none → r.time = none) ∧
        (∀ c, f.coords = some c → c.length ≤ 2 → r.depth = none) ∧
        (r.depth = none → r ∈ T.rows) := by
  obtain ⟨f0, hf0, hf0t⟩ := h2
  obtain ⟨f1, hf1, hf1m⟩ := h3
  have hne : p.feats ≠ [] := by
    intro hnil
    rw [hnil] at hf0
    cases hf0
  have hE : p.feats.isEmpty = false := by
    cases hp : p.feats with
    | nil => exact absurd hp hne
    | cons a as => rfl
  have hAllC : (p.feats.all fun f => f.coords.isNone) = false := by
    rw [Bool.eq_false_iff]
    intro hall
    have hc := List.all_eq_true.mp hall f0 hf0
    rw [Option.isNone_iff_eq_none] at hc
    have hs := h1 f0 hf0
    rw [hc] at hs
    simp at hs
  have hAnyC : (p.feats.any fun f => f.coords.isNone) = false := by
    rw [Bool.eq_false_iff]
    intro hany
    obtain ⟨f, hf, hfc⟩ := List.any_eq_true.mp hany
    rw [Option.isNone_iff_eq_none] at hfc
    have hs := h1 f hf
    rw [hfc] at hs
    simp at hs
  have hAllT : (p.feats.all fun f => f.time.isNone) = false := by
    rw [Bool.eq_false_iff]
    intro hall
    have hc := List.all_eq_true.mp hall f0 hf0
    rw [Option.isNone_iff_eq_none] at hc
    rw [hc] at hf0t
    simp at hf0t
  have hAllM : (p.feats.all fun f => f.mag.isNone) = false := by
    rw [Bool.eq_false_iff]
    intro hall
    have hc := List.all_eq_true.mp hall f1 hf1
    rw [Option.isNone_iff_eq_none] at hc
    rw [hc] at hf1m
    simp at hf1m
  have hmk : ∀ f ∈ p.feats, isOkE (mkRow f) = true := by
    intro f hf
    have h4f := h4 f hf
    cases ht : toDatetimeCell f.time with
    | error e => rw [ht] at h4f; simp [isOkE] at h4f
    | ok t => simp [mkRow, ht, isOkE]
  obtain ⟨rs, hrs⟩ := mapE_ok_of_forall hmk
  have hclean : clean_earthquakes mn mx p =
      .ok ⟨canonicalCols.filter (hasCol p.feats), rs.filter (keepDepth mn mx)⟩ := by
    simp only [clean_earthquakes, featureRows, hE, hAllC, hAnyC, hAllT, hAllM, hrs,
      Bool.false_eq_true, if_false]
  refine ⟨_, hclean, ?_⟩
  intro f hf
  have h4f := h4 f hf
  cases ht : toDatetimeCell f.time with
  | error e => rw [ht] at h4f; simp [isOkE] at h4f
  | ok t =>
    have hmkf : mkRow f = .ok (normalizeRow f t) := by simp [mkRow, ht]
    refine ⟨normalizeRow f t, hmkf, ?_, ?_, ?_, ?_⟩
    · intro hm
      simp [normalizeRow, hm, toNumericCell]
    · intro htn
      rw [htn] at ht
      simp only [toDatetimeCell] at ht
      cases ht
      rfl
    · intro c hc hlen
      simp [normalizeRow, hc, toNumericCell, List.getElem?_eq_none hlen]
    · intro hdn
      obtain ⟨b, hb, hbm⟩ := mapE_ok_mem hrs hf
      rw [hmkf] at hb
      cases hb
      exact List.mem_filter.mpr ⟨hbm, by simp [keepDepth, hdn]⟩

/-- C3 witness: the payload mixing a full record and a near-empty
record (empty coordinate array, no timestamp, no magnitude) normalizes
successfully. -/
theorem clean_earthquakes_total_when_columns_present_witness :
    ∃ T, clean_earthquakes 0 700 pC3 = .ok T :=
  (clean_earthquakes_total_when_columns_present 0 700 pC3
    (by decide) (by decide) (by decide) (by decide)).imp (fun T h => h.1)

/-- C7: for every record of a successfully normalized payload, its row
is built without any failure, and each of the magnitude, depth, lat and
lon fields that is present but is a string not parseable as a number
yields a null cell in that field of the row; the row enters the output
table whenever it passes the depth filter, and in particular always
when its depth is null. -/
theorem clean_earthquakes_coercion_tolerance (mn mx : ℚ) (p : Payload) (T : Table)
    (f : Feature) (hT : clean_earthquakes mn mx p = .ok T) (hf : f ∈ p.feats) :
    ∃ r, mkRow f = .ok r ∧
      (∀ s, f.mag = some (.jstr s) → parseRat s = none → r.magnitude = none) ∧
      (∀ c s, f.coords = some c → List.get? c 2 = some (.jstr s) → parseRat s = none →
        r.depth = none) ∧
      (∀ c s, f.coords = some c → List.get? c 1 = some (.jstr s) → parseRat s = none →
        r.lat = none) ∧
      (∀ c s, f.coords = some c → List.get? c 0 = some (.jstr s) → parseRat s = none →
        r.lon = none) ∧
      (keepDepth mn mx r = true → r ∈ T.rows) ∧
      (r.depth = none → r ∈ T.rows) := by
  rcases clean_ok_cases hT with ⟨hfe, rfl⟩ | ⟨hne, rs, hrs, rfl⟩
  · rw [hfe] at hf
    cases hf
  · obtain ⟨r, hr, hrm⟩ := mapE_ok_mem hrs hf
    cases ht : toDatetimeCell f.time with
    | error e => rw [mkRow, ht] at hr; cases hr
    | ok t =>
      rw [mkRow, ht] at hr
      cases hr
      refine ⟨normalizeRow f t, by rw [mkRow, ht], ?_, ?_, ?_, ?_, ?_, ?_⟩
      · intro s hm hs
        simp [normalizeRow, toNumericCell, hm, hs]
      · intro c s hc hget hs
        rw [List.get?_eq_getElem?] at hget
        simp [normalizeRow, toNumericCell, hc, hget, hs]
      · intro c s hc hget hs
        rw [List.get?_eq_getElem?] at hget
        simp [normalizeRow, toNumericCell, hc, hget, hs]
      · intro c s hc hget hs
        rw [List.get?_eq_getElem?] at hget
        simp [normalizeRow, toNumericCell, hc, hget, hs]
      · intro hk
        exact List.mem_filter.mpr ⟨hrm, hk⟩
      · intro hdn
        exact List.mem_filter.mpr ⟨hrm, by simp [keepDepth, hdn]⟩

/-- C7 witness: the record whose magnitude reads N/A and whose three
coordinate entries are non-numeric strings yields a row with null
magnitude, depth, lat and lon that is present in the output table. -/
theorem clean_earthquakes_coercion_tolerance_witness :
    rBadNums.magnitude = none ∧ rBadNums.depth = none ∧ rBadNums.lat = none ∧
    rBadNums.lon = none ∧ rBadNums ∈ (Table.mk colsC7 [rBadNums]).rows := by
  obtain ⟨r, hr, hmag, hdep, hlat, hlon, hkeep, hdn⟩ :=
    clean_earthquakes_coercion_tolerance 0 700 pBadNums ⟨colsC7, [rBadNums]⟩
      fBadNums (by rfl) (by decide)
  have h0 : mkRow fBadNums = .ok rBadNums := by rfl
  rw [h0] at hr
  cases hr
  exact ⟨hmag "N/A" rfl (by decide),
    hdep _ "deep" rfl rfl (by decide),
    hlat _ "north" rfl rfl (by decide),
    hlon _ "east" rfl rfl (by decide),
    hdn rfl⟩

/-- C9: the fetch cycle is atomic with respect to the session caches:
a transport error on a triggered fetch leaves the cached table and
parameters unchanged and surfaces the failure; a successful fetch whose
payload normalizes replaces the table and its generating parameters
together; and in every case the resulting state is either exactly the
prior state or a state whose two cache entries both come from the
current successful fetch. -/
theorem fetch_and_cache_atomic (qf : QueryFilter) (run_btn : Bool) (s : SessionState)
    (fetched : FetchResult) :
    (∀ e, (run_btn || s.df_cache.isNone) = true → fetched = .transportError e →
      fetch_and_cache_step qf run_btn s fetched =
        (s, some ("Failed to fetch data: " ++ e))) ∧
    (∀ geo df, (run_btn || s.df_cache.isNone) = true → fetched = .ok geo →
      clean_earthquakes qf.mindepth qf.maxdepth geo = .ok df →
      fetch_and_cache_step qf run_btn s fetched =
        (⟨some df, some (build_query_params qf)⟩, none)) ∧
    ((fetch_and_cache_step qf run_btn s fetched).1 = s ∨
      ∃ geo df, fetched = .ok geo ∧
        clean_earthquakes qf.mindepth qf.maxdepth geo = .ok df ∧
        (fetch_and_cache_step qf run_btn s fetched).1 =
          ⟨some df, some (build_query_params qf)⟩) := by
  refine ⟨?_, ?_, ?_⟩
  · intro e htrig hfe
    simp [fetch_and_cache_step, htrig, hfe]
  · intro geo df htrig hfe hclean
    simp [fetch_and_cache_step, htrig, hfe, hclean]
  · by_cases htrig : (run_btn || s.df_cache.isNone) = true
    · cases hfe : fetched with
      | transportError e => left; simp [fetch_and_cache_step, htrig, hfe]
      | ok geo =>
        cases hclean : clean_earthquakes qf.mindepth qf.maxdepth geo with
        | error e => left; simp [fetch_and_cache_step, htrig, hfe, hclean]
        | ok df =>
          right
          exact ⟨geo, df, rfl, hclean, by simp [fetch_and_cache_step, htrig, hfe, hclean]⟩
    · left
      simp [fetch_and_cache_step, htrig]

/-- C9 witness: a transport error on a triggered fetch leaves a
concrete prior cache state untouched and surfaces the message. -/
theorem fetch_and_cache_atomic_witness :
    fetch_and_cache_step qfGlobal true ⟨some ⟨canonicalCols, []⟩, none⟩
      (.transportError "boom") =
      (⟨some ⟨canonicalCols, []⟩, none⟩, some "Failed to fetch data: boom") :=
  (fetch_and_cache_atomic qfGlobal true ⟨some ⟨canonicalCols, []⟩, none⟩
    (.transportError "boom")).1 "boom" rfl rfl
